import Mathlib

/-!
Verification of the `whclient` error taxonomy (src/whclient/errors.go) and of
the close() idempotency contract of the reconnecting tunnel client.
-/

namespace Whclient

/-- Shallow embedding of Go's `clientError` struct (src/whclient/errors.go):
a tagged error value carrying a message string and two boolean fields. -/
structure clientError where
  errString : String
  reconnect : Bool
  timeout : Bool
deriving DecidableEq, Repr

/-- Embeds `func (c clientError) Error() string { return c.errString }`. -/
def clientError.Error (c : clientError) : String := c.errString

/-- Embeds `func (c clientError) Temporary() bool { return c.reconnect }`. -/
def clientError.Temporary (c : clientError) : Bool := c.reconnect

/-- Embeds `func (c clientError) Timeout() bool { return c.timeout }`. -/
def clientError.Timeout (c : clientError) : Bool := c.timeout

/-- `ErrRetryTimedOut = clientError{timeout: true, errString: "retry timed out"}`;
Go zero-values the omitted `reconnect` field to `false`. -/
def ErrRetryTimedOut : clientError := ⟨"retry timed out", false, true⟩

/-- `ErrBadToken = clientError{errString: "bad auth token"}`. -/
def ErrBadToken : clientError := ⟨"bad auth token", false, false⟩

/-- `ErrRetryFailed = clientError{errString: "retry failed"}`. -/
def ErrRetryFailed : clientError := ⟨"retry failed", false, false⟩

/-- `ErrClientReconnecting = clientError{errString: "client reconnecting", reconnect: true}`. -/
def ErrClientReconnecting : clientError := ⟨"client reconnecting", true, false⟩

/-- `ErrClientClosed = clientError{errString: "client closed"}`. -/
def ErrClientClosed : clientError := ⟨"client closed", false, false⟩

/-- `ErrAuthorizerNotProvided = clientError{errString: "authorizer function was not provided to client"}`. -/
def ErrAuthorizerNotProvided : clientError :=
  ⟨"authorizer function was not provided to client", false, false⟩

/-- `ErrTLSConfigRequired = clientError{errString: "tls config must be provided to use secure connections"}`. -/
def ErrTLSConfigRequired : clientError :=
  ⟨"tls config must be provided to use secure connections", false, false⟩

/-- The seven exported error values of the subsystem, in source order. -/
def allErrors : List clientError :=
  [ErrRetryTimedOut, ErrBadToken, ErrRetryFailed, ErrClientReconnecting,
   ErrClientClosed, ErrAuthorizerNotProvided, ErrTLSConfigRequired]

/-- Modelled from the spec: the client-wide state machine
`{Idle, Connecting, Connected, Reconnecting, Closed}` of the tunnel client
(client code absent from src/; only errors.go is present). -/
inductive ClientState
  | Idle
  | Connecting
  | Connected
  | Reconnecting
  | Closed
deriving DecidableEq, Repr

/-- Modelled from the spec: `close()` of the tunnel client (client code absent
from src/). The spec says close() is idempotent, transitions to Closed from any
state, and "must not error on the second call"; the modelled operation maps any
state to Closed and returns no error. -/
def closeClient (_ : ClientState) : ClientState × Option clientError :=
  (ClientState.Closed, none)

end Whclient

namespace Whclient

/-- C1: every one of the seven error values yields a defined boolean for both
Temporary() and Timeout(); concretely the (Temporary, Timeout) pairs in source
order are (F,T), (F,F), (F,F), (T,F), (F,F), (F,F), (F,F). -/
theorem c1_all_errors_have_both_predicates :
    allErrors.map (fun c => (c.Temporary, c.Timeout)) =
      [(false, true), (false, false), (false, false), (true, false),
       (false, false), (false, false), (false, false)] := by
  rfl

/-- C2: ErrClientReconnecting has Temporary() = true and Timeout() = false. -/
theorem c2_reconnecting_temporary_not_timeout :
    ErrClientReconnecting.Temporary = true ∧ ErrClientReconnecting.Timeout = false :=
  ⟨rfl, rfl⟩

/-- C3: ErrRetryTimedOut has Timeout() = true and Temporary() = false. -/
theorem c3_retry_timed_out_timeout_not_temporary :
    ErrRetryTimedOut.Timeout = true ∧ ErrRetryTimedOut.Temporary = false :=
  ⟨rfl, rfl⟩

/-- C4: among the seven defined error values, exactly ErrClientReconnecting has
Temporary() = true, exactly ErrRetryTimedOut has Timeout() = true, and no value
has both predicates true. -/
theorem c4_unique_temporary_unique_timeout :
    (allErrors.filter fun c => c.Temporary) = [ErrClientReconnecting] ∧
    (allErrors.filter fun c => c.Timeout) = [ErrRetryTimedOut] ∧
    (allErrors.filter fun c => c.Temporary && c.Timeout) = [] := by
  refine ⟨?_, ?_, ?_⟩ <;> rfl

/-- C5: ErrBadToken has Temporary() = false and Timeout() = false. -/
theorem c5_bad_token_permanent :
    ErrBadToken.Temporary = false ∧ ErrBadToken.Timeout = false :=
  ⟨rfl, rfl⟩

/-- C6: ErrClientClosed has Temporary() = false and Timeout() = false. -/
theorem c6_client_closed_permanent :
    ErrClientClosed.Temporary = false ∧ ErrClientClosed.Timeout = false :=
  ⟨rfl, rfl⟩

/-- C7: the two construction-time validation errors, ErrAuthorizerNotProvided
and ErrTLSConfigRequired, both have Temporary() = false and Timeout() = false. -/
theorem c7_construction_errors_permanent :
    ErrAuthorizerNotProvided.Temporary = false ∧
    ErrAuthorizerNotProvided.Timeout = false ∧
    ErrTLSConfigRequired.Temporary = false ∧
    ErrTLSConfigRequired.Timeout = false :=
  ⟨rfl, rfl, rfl, rfl⟩

/-- C8: for every clientError value c, Temporary() projects the reconnect field
and Timeout() projects the timeout field, and both predicates are deterministic. -/
theorem c8_predicates_are_field_projections (c : clientError) :
    c.Temporary = c.reconnect ∧ c.Timeout = c.timeout ∧
    c.Temporary = c.Temporary ∧ c.Timeout = c.Timeout :=
  ⟨rfl, rfl, rfl, rfl⟩

/-- Witness for C8 at the concrete value ErrBadToken. -/
theorem c8_witness :
    ErrBadToken.Temporary = ErrBadToken.reconnect ∧
    ErrBadToken.Timeout = ErrBadToken.timeout ∧
    ErrBadToken.Temporary = ErrBadToken.Temporary ∧
    ErrBadToken.Timeout = ErrBadToken.Timeout :=
  c8_predicates_are_field_projections ErrBadToken

/-- C9: close() is idempotent: from any state, after a first close() the state
is Closed, and any later close() returns without error and leaves the state
unchanged (still Closed). Modelled from the spec: the client code is absent
from src/. -/
theorem c9_close_idempotent (s : ClientState) :
    (closeClient s).1 = ClientState.Closed ∧
    closeClient (closeClient s).1 = ((closeClient s).1, none) :=
  ⟨rfl, rfl⟩

/-- Witness for C9 at the concrete state Connected. -/
theorem c9_witness :
    (closeClient ClientState.Connected).1 = ClientState.Closed ∧
    closeClient (closeClient ClientState.Connected).1 =
      ((closeClient ClientState.Connected).1, none) :=
  c9_close_idempotent ClientState.Connected

/-- C10: Error() returns exactly the errString field for every clientError
value, and the seven exported values carry exactly the listed, pairwise
distinct, non-empty message strings. -/
theorem c10_messages_distinct_nonempty :
    (∀ c : clientError, c.Error = c.errString) ∧
    allErrors.map clientError.Error =
      ["retry timed out", "bad auth token", "retry failed",
       "client reconnecting", "client closed",
       "authorizer function was not provided to client",
       "tls config must be provided to use secure connections"] ∧
    (allErrors.map clientError.Error).Nodup ∧
    (allErrors.map clientError.Error).all (fun s => !s.isEmpty) = true :=
  ⟨fun _ => rfl, rfl, by decide, by decide⟩

end Whclient
